import Mathlib

/-!
# Verification of the ProtGraph pipeline core

This development gives a shallow embedding of the ProtGraph sources
(protgraph/protgraph.py, protgraph/graph_generator.py, export/postgres.py,
protgraph/export/peptides/pep_postgres.py) and proves properties of the
embedded definitions.

Modelling conventions:
* Python dictionaries passed as kwargs are association lists from key
  strings to a small inductive of Python values; a missing key is a
  KeyError.
* Collaborator modules that are imported by the sources but are not part
  of the sources themselves (feature execution, digestion, statistics,
  the Exporters aggregate) are abstracted as function parameters; only
  their call sites and the control flow around them are embedded.
* Exceptions are modelled with Except / error fields; the worker loop,
  the writer loop and the supervisor loop are modelled as structurally
  recursive functions over finite traces of their inputs.
-/

namespace ProtGraph

/-- A Python value, as far as the embedded code needs to distinguish them. -/
inductive PyVal where
  | none
  | bool (b : Bool)
  | int (n : Int)
  | str (s : String)
  | strList (l : List String)
  | tyInt
  | tyFloat
  deriving DecidableEq, Repr

/-- kwargs dictionaries are association lists keyed by strings. -/
def Kwargs : Type := List (String × PyVal)

instance : DecidableEq Kwargs := by
  unfold Kwargs
  infer_instance

/-- Dictionary lookup; a missing key will surface as a KeyError. -/
def Kwargs.lookup (kw : Kwargs) (k : String) : Option PyVal :=
  List.lookup k kw

/-- Dictionary update, kwargs[k] = v (replacing the value if the key exists,
appending otherwise), as in the assignment on line 102 of graph_generator.py. -/
def Kwargs.set (kw : Kwargs) (k : String) (v : PyVal) : Kwargs :=
  match kw with
  | [] => [(k, v)]
  | (k0, v0) :: rest =>
    if k0 = k then (k0, v) :: rest else (k0, v0) :: Kwargs.set rest k v

/-- The exceptions that can cross the embedded control flow. -/
inductive Err where
  | keyError (k : String)
  | featureResolution (msg : String)
  | verifyFailed
  | exporterError (msg : String)
  | valueError
  | indexError
  deriving DecidableEq, Repr

/-- A feature record of an entry (type string plus an identifying payload). -/
structure Feature where
  type : String
  id : Nat
  deriving DecidableEq, Repr

/-- A SwissProt entry, with the fields the embedded code reads. -/
structure Entry where
  accessions : List String
  entry_name : String
  sequence : String
  description : String
  features : List Feature
  comments : List String
  deriving DecidableEq, Repr

/-! ## Canonical graph builder (_generate_canonical_graph) -/

/-- The igraph graph produced by the canonical builder: vertex count, the
edge list, the three vertex attribute columns that the source assigns, and
the set of edge attribute names (the source assigns none). -/
structure CanonicalGraph where
  numVertices : Nat
  edges : List (Nat × Nat)
  aminoacid : List String
  position : List Nat
  accession : List String
  edgeAttributeNames : List String
  deriving DecidableEq, Repr

/-- Embedding of _generate_canonical_graph (graph_generator.py, lines 24-44):
a chain of len(sequence)+2 vertices, edges (x1, x1+1) for x1 in
range(len(sequence)+1), and the aminoacid / position / accession vertex
attribute columns.  No edge attribute is ever assigned. -/
def generateCanonicalGraph (sequence : String) (acc : String) : CanonicalGraph :=
  { numVertices := sequence.length + 2
  , edges := (List.range (sequence.length + 1)).map (fun x1 => (x1, x1 + 1))
  , aminoacid :=
      "__start__" :: (sequence.toList.map (fun c => String.mk [c]) ++ ["__end__"])
  , position := List.range (sequence.length + 2)
  , accession := acc :: (List.replicate sequence.length acc ++ [acc])
  , edgeAttributeNames := [] }

/-! ## Pipeline construction (prot_graph, lines 18-38) -/

/-- The queue and worker configuration that prot_graph builds:
Queue(1000) for entries, an unbounded Queue() for statistics, and
cpu_count() - 1 workers when num_of_processes is None. -/
structure PipelineConfig where
  entryQueueCapacity : Option Nat
  statisticsQueueCapacity : Option Nat
  numWorkers : Nat
  deriving DecidableEq, Repr

/-- Embedding of the queue/process setup of prot_graph
(protgraph.py, lines 21-25). -/
def protGraphConfig (numOfProcesses : Option Nat) (cpuCount : Nat) : PipelineConfig :=
  { entryQueueCapacity := some 1000
  , statisticsQueueCapacity := Option.none
  , numWorkers :=
      match numOfProcesses with
      | Option.none => cpuCount - 1
      | some k => k }

/-! ## Feature sorting and application order (_sort_entry_features,
_include_spefic_ft, _include_ft_information) -/

/-- Embedding of _sort_entry_features (graph_generator.py, lines 47-56):
grouping the features of an entry by type into a defaultdict preserves the
entry order within each type, so the group of a type is the filter by that
type; a type is a key of the dict iff its group is non-empty. -/
def sortEntryFeatures (entry : Entry) (t : String) : List Feature :=
  entry.features.filter (fun f => f.type = t)

/-- Embedding of the per-feature applications performed by _include_spefic_ft
(graph_generator.py, lines 59-66) as an event trace: when the type is a key of
the sorted features and of ft_dict, the method is called once per feature of
that type, in order. -/
def includeSpecificFtTrace (ftType : String) (entry : Entry) (ftDict : List String) :
    List (String × Feature) :=
  if sortEntryFeatures entry ftType ≠ [] ∧ ftType ∈ ftDict then
    (sortEntryFeatures entry ftType).map (fun f => (ftType, f))
  else []

/-- The counter returned by _include_spefic_ft: None when the type is not in
ft_dict, otherwise the number of features of that type in the entry. -/
def includeSpecificFtNum (ftType : String) (entry : Entry) (ftDict : List String) :
    Option Nat :=
  if ftType ∈ ftDict then some (sortEntryFeatures entry ftType).length
  else Option.none

/-- Embedding of _include_ft_information (graph_generator.py, lines 69-93) as
an application trace: the VAR_SEQ features first (they are handed to
execute_var_seq in one call, one event per feature here), then per-feature
application of INIT_MET, SIGNAL, VARIANT, MUTAGEN, CONFLICT, PROPEP and
PEPTIDE, in the order of the source lines 83-91. -/
def includeFtTrace (entry : Entry) (ftDict : List String) : List (String × Feature) :=
  (if sortEntryFeatures entry "VAR_SEQ" ≠ [] ∧ "VAR_SEQ" ∈ ftDict then
    (sortEntryFeatures entry "VAR_SEQ").map (fun f => ("VAR_SEQ", f))
  else [])
  ++ includeSpecificFtTrace "INIT_MET" entry ftDict
  ++ includeSpecificFtTrace "SIGNAL" entry ftDict
  ++ includeSpecificFtTrace "VARIANT" entry ftDict
  ++ includeSpecificFtTrace "MUTAGEN" entry ftDict
  ++ includeSpecificFtTrace "CONFLICT" entry ftDict
  ++ includeSpecificFtTrace "PROPEP" entry ftDict
  ++ includeSpecificFtTrace "PEPTIDE" entry ftDict

/-- The fixed kind order of feature application stated by the specification. -/
def ftKindOrder : List String :=
  ["VAR_SEQ", "INIT_MET", "SIGNAL", "VARIANT", "MUTAGEN", "CONFLICT", "PROPEP", "PEPTIDE"]

/-- The block of application events a single kind contributes (its features in
entry order, when the kind is enabled). -/
def ftKindBlock (entry : Entry) (ftDict : List String) (k : String) :
    List (String × Feature) :=
  if k ∈ ftDict then (entry.features.filter (fun f => f.type = k)).map (fun f => (k, f))
  else []

/-! ## The ft_dict computed by the worker (generate_graph_consumer,
graph_generator.py lines 104-110) -/

/-- The eight feature kinds enabled by default, in the order of the dict
literal on line 107 of graph_generator.py. -/
def allFtKinds : List String :=
  ["PEPTIDE", "PROPEP", "VARIANT", "VAR_SEQ", "SIGNAL", "INIT_MET", "MUTAGEN", "CONFLICT"]

/-- Embedding of the ft_dict construction (graph_generator.py, lines 104-110):
kwargs of key feature_table is read (KeyError when absent); if it is None,
empty, or contains ALL, all eight kinds are enabled, otherwise exactly the
listed kinds.  A non-list, non-None value would fail in len(). -/
def computeFtDict (kw : Kwargs) : Except Err (List String) :=
  match kw.lookup "feature_table" with
  | Option.none => Except.error (Err.keyError "feature_table")
  | some PyVal.none => Except.ok allFtKinds
  | some (PyVal.strList l) =>
    if l.length = 0 ∨ "ALL" ∈ l then Except.ok allFtKinds else Except.ok l
  | some _ => Except.error Err.valueError

/-! ## The statistics record and the CSV header -/

/-- The six feature counters returned by _include_ft_information
(graph_generator.py, line 93). -/
structure FtCounts where
  num_isoforms : Option Nat
  num_initm : Option Nat
  num_signal : Option Nat
  num_variant : Option Nat
  num_mutagens : Option Nat
  num_conflicts : Option Nat
  deriving DecidableEq, Repr

/-- The eight values returned by get_statistics (collaborator module, not
among the sources; carried opaquely as Python values). -/
structure StatNums where
  num_nodes : PyVal
  num_edges : PyVal
  num_paths : PyVal
  num_paths_miscleavages : PyVal
  num_paths_hops : PyVal
  num_paths_var : PyVal
  num_path_mut : PyVal
  num_path_con : PyVal
  deriving DecidableEq, Repr

/-- The data gathered for one entry, from which the statistics tuple put on
the statistics queue is formed. -/
structure Stat where
  accession : String
  entry_name : String
  counts : FtCounts
  num_of_cleavages : Nat
  nums : StatNums
  entry_protein_desc : Option String
  deriving DecidableEq, Repr

/-- An optional count as the Python value put into the tuple. -/
def optNatVal : Option Nat → PyVal
  | Option.none => PyVal.none
  | some n => PyVal.int n

/-- An optional string as the Python value put into the tuple. -/
def optStrVal : Option String → PyVal
  | Option.none => PyVal.none
  | some s => PyVal.str s

/-- Embedding of the statistics tuple put on the statistics queue
(graph_generator.py, lines 172-193), field by field in source order. -/
def statRow (st : Stat) : List PyVal :=
  [ PyVal.str st.accession
  , PyVal.str st.entry_name
  , optNatVal st.counts.num_isoforms
  , optNatVal st.counts.num_initm
  , optNatVal st.counts.num_signal
  , optNatVal st.counts.num_variant
  , optNatVal st.counts.num_mutagens
  , optNatVal st.counts.num_conflicts
  , PyVal.int st.num_of_cleavages
  , st.nums.num_nodes
  , st.nums.num_edges
  , st.nums.num_paths
  , st.nums.num_paths_miscleavages
  , st.nums.num_paths_hops
  , st.nums.num_paths_var
  , st.nums.num_path_mut
  , st.nums.num_path_con
  , optStrVal st.entry_protein_desc ]

/-- Embedding of the header row written by write_output_csv_thread
(protgraph.py, lines 437-453), string by string. -/
def csvHeaderRow : List String :=
  [ "Accession"
  , "Entry ID"
  , "Number of isoforms"
  , "Has INIT_MET"
  , "Has SIGNAL"
  , "Number of variants"
  , "Number of cleaved edges"
  , "Number of nodes"
  , "Number of edges"
  , "Num of possible paths"
  , "Num of possible paths (by miscleavages 0, 1, ...)"
  , "Num of possible paths (by hops 0, 1, ...)"
  , "Protein description" ]

/-- Embedding of the drain loop of write_output_csv_thread (protgraph.py,
lines 455-466): data rows are written until the first stop token (None) is
dequeued; the header precedes them, so the written file is
csvHeaderRow :: writerRows queue. -/
def writerRows : List (Option (List PyVal)) → List (List PyVal)
  | [] => []
  | Option.none :: _ => []
  | some r :: rest => r :: writerRows rest

/-! ## No-duplicates insert retry (PepPostgres._execute_export_no_duplicates) -/

/-- Events of the retry loop: an execute attempt, or the rollback issued
after a failed attempt. -/
inductive RetryEvent where
  | execute (attempt : Nat)
  | rollback (attempt : Nat)
  deriving DecidableEq, Repr

/-- Embedding of PepPostgres._execute_export_no_duplicates
(pep_postgres.py, lines 285-291): try cursor.execute; on any exception,
conn.rollback() and recurse, with no retry limit.  The outcome of the i-th
execute attempt is given by the oracle succeeds; fuel bounds the finite
trace we observe.  Returns the index of the successful attempt (if one
occurred within fuel attempts) and the event trace; the nesting depth of
the recursion equals the number of execute events. -/
def executeExportNoDuplicates (succeeds : Nat → Bool) :
    Nat → Nat → Option Nat × List RetryEvent
  | 0, _ => (Option.none, [])
  | fuel + 1, i =>
    if succeeds i then
      (some i, [RetryEvent.execute i])
    else
      let r := executeExportNoDuplicates succeeds fuel (i + 1)
      (r.1, RetryEvent.execute i :: RetryEvent.rollback i :: r.2)

/-! ## The worker (generate_graph_consumer, graph_generator.py lines 96-193) -/

/-- Python truthiness of the embedded values, for the flag tests
`if not kwargs[...]` and `if kwargs[...]` in the worker body. -/
def PyVal.truthy : PyVal → Bool
  | PyVal.none => false
  | PyVal.bool b => b
  | PyVal.int n => decide (n ≠ 0)
  | PyVal.str s => decide (s ≠ "")
  | PyVal.strList l => decide (l ≠ [])
  | PyVal.tyInt => true
  | PyVal.tyFloat => true

/-- kwargs[k] with KeyError on a missing key. -/
def Kwargs.get (kw : Kwargs) (k : String) : Except Err PyVal :=
  match kw.lookup k with
  | Option.none => Except.error (Err.keyError k)
  | some v => Except.ok v

/-- The collaborator functions the worker body calls whose modules are not
among the sources (ft_execution, aa_replacer, digestion, graph statistics,
verification, the exporter aggregate); they are abstracted as parameters of
the embedding, as deterministic functions of the entry. -/
structure Externals where
  startedExporters : List String
  includeFt : Entry → List String → Except Err FtCounts
  digest : Entry → PyVal → Nat
  statistics : Entry → StatNums
  verify : Entry → Except Err Unit
  exportGraph : Entry → Except Err Unit

/-- Embedding of the protein description extraction (graph_generator.py,
lines 166-170): when no_description is falsy, take the part of the
description before the first semicolon and then everything after its first
equals sign; a missing equals sign raises ValueError (str.index). -/
def descOf (noDescription : Bool) (description : String) : Except Err (Option String) :=
  if noDescription then Except.ok Option.none
  else
    let first := (description.splitOn ";").headD ""
    let cs := first.toList
    if '=' ∈ cs then
      Except.ok (some (String.mk ((cs.dropWhile (fun c => c ≠ '=')).drop 1)))
    else Except.error Err.valueError

/-- Embedding of the per-entry body of the worker loop (graph_generator.py,
lines 124-193): canonical graph construction, feature application, amino
acid replacement, digestion, merging, collapsing, weight annotation,
statistics, optional verification, export, and the description; every step
follows the source order, and any raised exception aborts the body. -/
def processEntry (ext : Externals) (kw : Kwargs) (ftDict : List String)
    (entry : Entry) : Except Err Stat := do
  let acc ← match entry.accessions.head? with
    | some a => Except.ok a
    | Option.none => Except.error Err.indexError
  let _graph := generateCanonicalGraph entry.sequence acc
  let counts ← ext.includeFt entry ftDict
  let _replaceRules ← kw.get "replace_aa"
  let digestion ← kw.get "digestion"
  let numOfCleavages := ext.digest entry digestion
  let _noMerge ← kw.get "no_merge"
  let _noCollapse ← kw.get "no_collapsing_edges"
  let nums := ext.statistics entry
  let verifyFlag ← kw.get "verify_graph"
  let _ ← (if verifyFlag.truthy then ext.verify entry else Except.ok ())
  let _ ← ext.exportGraph entry
  let noDesc ← kw.get "no_description"
  let desc ← descOf noDesc.truthy entry.description
  return { accession := acc
         , entry_name := entry.entry_name
         , counts := counts
         , num_of_cleavages := numOfCleavages
         , nums := nums
         , entry_protein_desc := desc }

/-- Embedding of the worker dequeue loop (graph_generator.py, lines 115-122
and the loop body): entries are dequeued until the first stop token (None);
the loop body has no exception handler, so a failing body ends the loop
exceptionally.  Returns the statistics records put on the statistics queue,
the number of queue.get calls, and the uncaught exception, if any. -/
def consumerLoop (process : Entry → Except Err Stat) :
    List (Option Entry) → List Stat × Nat × Option Err
  | [] => ([], 0, Option.none)
  | Option.none :: _ => ([], 1, Option.none)
  | some e :: rest =>
    match process e with
    | Except.error err => ([], 1, some err)
    | Except.ok st =>
      let r := consumerLoop process rest
      (st :: r.1, r.2.1 + 1, r.2.2)

/-- The observable outcome of one worker process. -/
structure ConsumerRun where
  stats : List Stat
  dequeued : Nat
  err : Option Err
  tornDown : List String
  deriving DecidableEq, Repr

/-- Modelled from the spec: the Exporters aggregate
(protgraph/export/exporters.py is not among the sources).  Per the exporter
contract, every worker guarantees tear_down() is invoked on every started
exporter on all exit paths; the Python with-statement runs this exit hook on
both normal and exceptional exit of its body. -/
def exportersWithBlock (started : List String)
    (body : List Stat × Nat × Option Err) : ConsumerRun :=
  { stats := body.1
  , dequeued := body.2.1
  , err := body.2.2
  , tornDown := started }

/-- Embedding of generate_graph_consumer (graph_generator.py, lines 96-193):
set kwargs of key proc_id, compute ft_dict from kwargs of key feature_table
(a KeyError here precedes the with-block and the first dequeue), then run
the dequeue loop inside the Exporters with-block. -/
def generateGraphConsumer (ext : Externals) (procId : Nat) (kw0 : Kwargs)
    (queue : List (Option Entry)) : ConsumerRun :=
  let kw := kw0.set "proc_id" (PyVal.int procId)
  match computeFtDict kw with
  | Except.error e =>
    { stats := [], dequeued := 0, err := some e, tornDown := [] }
  | Except.ok ftDict =>
    exportersWithBlock ext.startedExporters (consumerLoop (processEntry ext kw ftDict) queue)

/-- The kwargs keys through which generate_graph_consumer reads its
configuration (graph_generator.py, lines 106, 136, 139, 142, 146, 159, 166). -/
def consumerReadKeys : List String :=
  [ "feature_table", "replace_aa", "digestion", "no_merge"
  , "no_collapsing_edges", "verify_graph", "no_description" ]

/-! ## The argument dictionary built by parse_args (protgraph.py,
lines 357-421) -/

/-- The parsed command line arguments, one field per argparse destination. -/
structure ParsedArgs where
  files : List String
  num_of_entries : Option Int
  exclude_accessions : Option String
  num_of_processes : Option Int
  verify_graph : Bool
  skip_isoforms : Bool
  skip_variants : Bool
  skip_init_met : Bool
  skip_signal : Bool
  digestion : String
  no_merge : Bool
  annotate_mono_weights : Bool
  annotate_avrg_weights : Bool
  annotate_mono_weight_to_end : Bool
  annotate_avrg_weight_to_end : Bool
  mass_dict_type : PyVal
  mass_dict_factor : Int
  calc_num_possibilities : Bool
  calc_num_possibilities_miscleavages : Bool
  calc_num_possibilities_hops : Bool
  output_csv : String
  export_output_folder : String
  export_in_directories : Bool
  export_dot : Bool
  export_graphml : Bool
  export_gml : Bool
  export_pickle : Bool
  export_redisgraph : Bool
  redisgraph_host : String
  redisgraph_port : Int
  redisgraph_graph : String
  export_postgres : Bool
  postgres_host : String
  postgres_port : Int
  postgres_user : String
  postgres_password : String
  postgres_database : String
  export_postgres_trypper : Bool
  postgres_trypper_host : String
  postgres_trypper_port : Int
  postgres_trypper_user : String
  postgres_trypper_password : String
  postgres_trypper_database : String
  postgres_trypper_hops : Int
  postgres_trypper_miscleavages : Int
  postgres_trypper_min_pep_length : Int
  export_gremlin : Bool
  gremlin_url : String
  gremlin_traversal_source : String

/-- An optional integer as a Python value. -/
def optIntVal : Option Int → PyVal
  | Option.none => PyVal.none
  | some n => PyVal.int n

/-- Embedding of the graph_gen_args dictionary literal returned by
parse_args (protgraph.py, lines 358-419), key by key in source order. -/
def parseArgsDict (a : ParsedArgs) : Kwargs :=
  [ ("files", PyVal.strList a.files)
  , ("num_of_entries", optIntVal a.num_of_entries)
  , ("exclude_accessions", optStrVal a.exclude_accessions)
  , ("num_of_processes", optIntVal a.num_of_processes)
  , ("verify_graph", PyVal.bool a.verify_graph)
  , ("skip_isoforms", PyVal.bool a.skip_isoforms)
  , ("skip_variants", PyVal.bool a.skip_variants)
  , ("skip_init_met", PyVal.bool a.skip_init_met)
  , ("skip_signal", PyVal.bool a.skip_signal)
  , ("digestion", PyVal.str a.digestion)
  , ("no_merge", PyVal.bool a.no_merge)
  , ("annotate_mono_weights", PyVal.bool a.annotate_mono_weights)
  , ("annotate_avrg_weights", PyVal.bool a.annotate_avrg_weights)
  , ("annotate_mono_weight_to_end", PyVal.bool a.annotate_mono_weight_to_end)
  , ("annotate_avrg_weight_to_end", PyVal.bool a.annotate_avrg_weight_to_end)
  , ("mass_dict_type", a.mass_dict_type)
  , ("mass_dict_factor", PyVal.int a.mass_dict_factor)
  , ("calc_num_possibilities", PyVal.bool a.calc_num_possibilities)
  , ("calc_num_possibilities_miscleavages", PyVal.bool a.calc_num_possibilities_miscleavages)
  , ("calc_num_possibilities_hops", PyVal.bool a.calc_num_possibilities_hops)
  , ("output_csv", PyVal.str a.output_csv)
  , ("export_output_folder", PyVal.str a.export_output_folder)
  , ("export_in_directories", PyVal.bool a.export_in_directories)
  , ("export_dot", PyVal.bool a.export_dot)
  , ("export_graphml", PyVal.bool a.export_graphml)
  , ("export_gml", PyVal.bool a.export_gml)
  , ("export_pickle", PyVal.bool a.export_pickle)
  , ("export_redisgraph", PyVal.bool a.export_redisgraph)
  , ("redisgraph_host", PyVal.str a.redisgraph_host)
  , ("redisgraph_port", PyVal.int a.redisgraph_port)
  , ("redisgraph_graph", PyVal.str a.redisgraph_graph)
  , ("export_postgres", PyVal.bool a.export_postgres)
  , ("postgres_host", PyVal.str a.postgres_host)
  , ("postgres_port", PyVal.int a.postgres_port)
  , ("postgres_user", PyVal.str a.postgres_user)
  , ("postgres_password", PyVal.str a.postgres_password)
  , ("postgres_database", PyVal.str a.postgres_database)
  , ("export_postgres_trypper", PyVal.bool a.export_postgres_trypper)
  , ("postgres_trypper_host", PyVal.str a.postgres_trypper_host)
  , ("postgres_trypper_port", PyVal.int a.postgres_trypper_port)
  , ("postgres_trypper_user", PyVal.str a.postgres_trypper_user)
  , ("postgres_trypper_password", PyVal.str a.postgres_trypper_password)
  , ("postgres_trypper_database", PyVal.str a.postgres_trypper_database)
  , ("postgres_trypper_hops", PyVal.int a.postgres_trypper_hops)
  , ("postgres_trypper_miscleavages", PyVal.int a.postgres_trypper_miscleavages)
  , ("postgres_trypper_min_pep_length", PyVal.int a.postgres_trypper_min_pep_length)
  , ("export_gremlin", PyVal.bool a.export_gremlin)
  , ("gremlin_url", PyVal.str a.gremlin_url)
  , ("gremlin_traversal_source", PyVal.str a.gremlin_traversal_source) ]

/-! ## The supervisor loop (prot_graph, protgraph.py lines 51-74) -/

/-- What the supervisor observes in one poll iteration: liveness of the
writer thread, of all worker processes, and of the reader process. -/
structure SupObs where
  writerAlive : Bool
  workersAllDead : Bool
  readerAlive : Bool
  deriving DecidableEq, Repr

/-- The supervisor state: the two sent-flags and the number of stop tokens
placed on the entry queue and on the statistics queue. -/
structure SupState where
  ggStopSent : Bool
  writerStopSent : Bool
  entryTokens : Nat
  statsTokens : Nat
  deriving DecidableEq, Repr

/-- The supervisor state before the polling loop (protgraph.py,
lines 51-52). -/
def initSupState : SupState :=
  { ggStopSent := false, writerStopSent := false, entryTokens := 0, statsTokens := 0 }

/-- One iteration of the supervisor polling loop (protgraph.py,
lines 53-74), in source order: break when the writer is dead; else if all
workers are dead and the statistics stop token was not yet sent, put one
None on the statistics queue; else if the reader is dead and the entry stop
tokens were not yet sent, put one None per worker on the entry queue.
Returns the new state and whether the loop breaks. -/
def supStep (n : Nat) (st : SupState) (o : SupObs) : SupState × Bool :=
  if o.writerAlive = false then (st, true)
  else if o.workersAllDead = true ∧ st.writerStopSent = false then
    ({ st with statsTokens := st.statsTokens + 1, writerStopSent := true }, false)
  else if o.readerAlive = false ∧ st.ggStopSent = false then
    ({ st with entryTokens := st.entryTokens + n, ggStopSent := true }, false)
  else (st, false)

/-- The supervisor loop over a finite trace of poll observations: iterate
supStep until it breaks or the trace ends.  Returns the final state and
whether the loop exited via the break. -/
def supRun (n : Nat) : SupState → List SupObs → SupState × Bool
  | st, [] => (st, false)
  | st, o :: rest =>
    let r := supStep n st o
    if r.2 then (r.1, true) else supRun n r.1 rest

/-! ## Postgres exporter tear-down (export/postgres.py, lines 112-118) -/

/-- The connection state of the Postgres exporter. -/
structure PostgresState where
  cursorOpen : Bool
  connOpen : Bool
  deriving DecidableEq, Repr

/-- Embedding of Postgres.tear_down (export/postgres.py, lines 112-118):
cursor.close() followed by conn.close(), both inside one try whose except
swallows the failure and only prints.  The two oracle flags say whether the
respective close call raises; a raising cursor.close() aborts the try body,
so conn.close() is never reached and the connection handle keeps its state.
Returns the handle state after the call and whether a failure was swallowed
(printed); tear_down itself never propagates an exception. -/
def postgresTearDown (cursorCloseRaises connCloseRaises : Bool)
    (s : PostgresState) : PostgresState × Bool :=
  if cursorCloseRaises then
    (s, true)
  else
    if connCloseRaises then
      ({ s with cursorOpen := false }, true)
    else
      ({ s with cursorOpen := false, connOpen := false }, false)

/-! ## Concrete example inputs used by witnesses and counterexamples -/

/-- A parsed command line holding every argparse default of parse_args
(protgraph.py, lines 92-353); files has no default and is given one entry. -/
def defaultParsedArgs : ParsedArgs :=
  { files := ["proteins.dat"]
  , num_of_entries := Option.none
  , exclude_accessions := Option.none
  , num_of_processes := Option.none
  , verify_graph := false
  , skip_isoforms := false
  , skip_variants := false
  , skip_init_met := false
  , skip_signal := false
  , digestion := "trypsin"
  , no_merge := false
  , annotate_mono_weights := false
  , annotate_avrg_weights := false
  , annotate_mono_weight_to_end := false
  , annotate_avrg_weight_to_end := false
  , mass_dict_type := PyVal.tyInt
  , mass_dict_factor := 1000000000
  , calc_num_possibilities := false
  , calc_num_possibilities_miscleavages := false
  , calc_num_possibilities_hops := false
  , output_csv := "protein_graph_statistics.csv"
  , export_output_folder := "exported_graphs"
  , export_in_directories := false
  , export_dot := false
  , export_graphml := false
  , export_gml := false
  , export_pickle := false
  , export_redisgraph := false
  , redisgraph_host := "localhost"
  , redisgraph_port := 6379
  , redisgraph_graph := "proteins"
  , export_postgres := false
  , postgres_host := "127.0.0.1"
  , postgres_port := 5433
  , postgres_user := "postgres"
  , postgres_password := "developer"
  , postgres_database := "proteins"
  , export_postgres_trypper := false
  , postgres_trypper_host := "127.0.0.1"
  , postgres_trypper_port := 5433
  , postgres_trypper_user := "postgres"
  , postgres_trypper_password := "developer"
  , postgres_trypper_database := "proteins"
  , postgres_trypper_hops := 9
  , postgres_trypper_miscleavages := -1
  , postgres_trypper_min_pep_length := 0
  , export_gremlin := false
  , gremlin_url := "ws://localhost:8182/gremlin"
  , gremlin_traversal_source := "g" }

/-- A kwargs dictionary carrying every key the worker reads. -/
def exampleKwargs : Kwargs :=
  [ ("feature_table", PyVal.none)
  , ("replace_aa", PyVal.none)
  , ("digestion", PyVal.str "trypsin")
  , ("no_merge", PyVal.bool false)
  , ("no_collapsing_edges", PyVal.bool false)
  , ("verify_graph", PyVal.bool false)
  , ("no_description", PyVal.bool true) ]

/-- Collaborator functions that always succeed. -/
def exampleExternals : Externals :=
  { startedExporters := ["postgres"]
  , includeFt := fun _ _ =>
      Except.ok (FtCounts.mk (some 0) (some 0) (some 0) (some 0) (some 0) (some 0))
  , digest := fun _ _ => 0
  , statistics := fun _ =>
      StatNums.mk (PyVal.int 4) (PyVal.int 3) PyVal.none PyVal.none PyVal.none
        PyVal.none PyVal.none PyVal.none
  , verify := fun _ => Except.ok ()
  , exportGraph := fun _ => Except.ok () }

/-- Collaborator functions whose feature application fails on accession
P00001 and succeeds elsewhere. -/
def failingExternals : Externals :=
  { exampleExternals with
    includeFt := fun e _ =>
      if e.accessions.headD "" = "P00001" then
        Except.error (Err.featureResolution "feature position out of range")
      else
        Except.ok (FtCounts.mk (some 0) (some 0) (some 0) (some 0) (some 0) (some 0)) }

/-- An entry on which the failing collaborators raise during feature
application. -/
def exampleEntryFail : Entry :=
  { accessions := ["P00001"]
  , entry_name := "FAIL_HUMAN"
  , sequence := "MKAV"
  , description := "RecName: Full=Bad protein; AltName: none"
  , features := [Feature.mk "VARIANT" 0]
  , comments := [] }

/-- An entry the failing collaborators process successfully. -/
def exampleEntryOk : Entry :=
  { accessions := ["P00002"]
  , entry_name := "OK_HUMAN"
  , sequence := "MK"
  , description := "RecName: Full=Good protein; AltName: none"
  , features := []
  , comments := [] }

/-- A statistics record used by concrete runs. -/
def exampleStat : Stat :=
  { accession := "P00002"
  , entry_name := "OK_HUMAN"
  , counts := FtCounts.mk (some 0) (some 0) (some 0) (some 0) (some 0) (some 0)
  , num_of_cleavages := 0
  , nums := StatNums.mk (PyVal.int 4) (PyVal.int 3) PyVal.none PyVal.none
      PyVal.none PyVal.none PyVal.none PyVal.none
  , entry_protein_desc := Option.none }

/-! ## Helper lemmas -/

/-- Updating one key of a kwargs dictionary does not change lookups of
other keys. -/
lemma Kwargs.lookup_set_ne (kw : Kwargs) (k k' : String) (v : PyVal) (h : k ≠ k') :
    (Kwargs.set kw k' v).lookup k = kw.lookup k := by
  induction kw with
  | nil =>
    simp only [Kwargs.set, Kwargs.lookup, List.lookup]
    rw [show (k == k') = false from beq_eq_false_iff_ne.mpr h]
  | cons p rest ih =>
    obtain ⟨k0, v0⟩ := p
    by_cases hk : k0 = k'
    · subst hk
      simp only [Kwargs.set, if_pos rfl, Kwargs.lookup, List.lookup]
      rw [show (k == k0) = false from beq_eq_false_iff_ne.mpr h]
    · simp only [Kwargs.set, if_neg hk]
      show List.lookup k ((k0, v0) :: Kwargs.set rest k' v) = List.lookup k ((k0, v0) :: rest)
      simp only [List.lookup]
      cases hb : (k == k0)
      · exact ih
      · rfl

/-- The length of a flatMap whose blocks are two-element lists. -/
lemma length_flatMap_pair {α β : Type} (a b : α → β) :
    ∀ l : List α, (l.flatMap (fun j => [a j, b j])).length = 2 * l.length := by
  intro l
  induction l with
  | nil => simp
  | cons x xs ih => simp [ih]; omega

/-- The success index returned by the retry loop is some iff one of the
attempts within the observed fuel succeeds. -/
lemma executeExportNoDuplicates_isSome (s : Nat → Bool) :
    ∀ fuel i, ((executeExportNoDuplicates s fuel i).1.isSome = true ↔
      ∃ k, k < fuel ∧ s (i + k) = true) := by
  intro fuel
  induction fuel with
  | zero =>
    intro i
    simp [executeExportNoDuplicates]
  | succ n ih =>
    intro i
    by_cases h : s i = true
    · simp only [executeExportNoDuplicates, h, if_pos]
      constructor
      · intro _
        exact ⟨0, by omega, by simpa using h⟩
      · intro _
        rfl
    · simp only [executeExportNoDuplicates, h, if_neg, Bool.false_eq_true,
        not_false_iff]
      rw [ih (i + 1)]
      constructor
      · rintro ⟨k, hk, hs⟩
        exact ⟨k + 1, by omega, by rwa [show i + (k + 1) = i + 1 + k by omega]⟩
      · rintro ⟨k, hk, hs⟩
        match k, hs with
        | 0, hs => exact absurd (by simpa using hs) h
        | k' + 1, hs =>
          exact ⟨k', by omega, by rwa [show i + 1 + k' = i + (k' + 1) by omega]⟩

/-- Under a persistently failing insert the retry loop produces an
execute-rollback pair per attempt and never returns a success index. -/
lemma executeExportNoDuplicates_persistent (s : Nat → Bool) (hs : ∀ i, s i = false) :
    ∀ fuel i, executeExportNoDuplicates s fuel i =
      (Option.none, (List.range' i fuel).flatMap
        (fun j => [RetryEvent.execute j, RetryEvent.rollback j])) := by
  intro fuel
  induction fuel with
  | zero =>
    intro i
    simp [executeExportNoDuplicates]
  | succ n ih =>
    intro i
    rw [List.range'_succ]
    simp [executeExportNoDuplicates, hs i, ih (i + 1)]

/-- The per-kind application trace equals the kind block. -/
lemma includeSpecificFtTrace_eq_block (t : String) (entry : Entry) (d : List String) :
    includeSpecificFtTrace t entry d = ftKindBlock entry d t := by
  unfold includeSpecificFtTrace ftKindBlock sortEntryFeatures
  by_cases hm : t ∈ d
  · by_cases he : entry.features.filter (fun f => f.type = t) = []
    · simp [hm, he]
    · simp [hm, he]
  · simp [hm]

/-- An application event of kind k never occurs in the block of another
kind. -/
lemma countP_ftKindBlock_ne (entry : Entry) (d : List String) (k k' : String)
    (f : Feature) (h : k' ≠ k) :
    (ftKindBlock entry d k').countP (fun y => y = (k, f)) = 0 := by
  rw [List.countP_eq_zero]
  intro a ha
  unfold ftKindBlock at ha
  by_cases hm : k' ∈ d
  · simp only [hm, if_pos, List.mem_map] at ha
    obtain ⟨x, _, rfl⟩ := ha
    simp [h]
  · simp [hm] at ha

/-- An application event of kind k never occurs in the blocks of a kind
list avoiding k. -/
lemma countP_ftKindBlock_flatMap_not_mem (entry : Entry) (d : List String)
    (k : String) (f : Feature) :
    ∀ kinds : List String, k ∉ kinds →
      ((kinds.flatMap (ftKindBlock entry d)).countP (fun y => y = (k, f))) = 0 := by
  intro kinds
  induction kinds with
  | nil => simp
  | cons x xs ih =>
    intro hk
    rw [List.flatMap_cons, List.countP_append]
    rw [countP_ftKindBlock_ne entry d k x f (by simp at hk; exact fun e => hk.1 e.symm)]
    rw [ih (by simp at hk; exact hk.2)]

/-- Occurrences of an event of kind k in the concatenated blocks of a
duplicate-free kind list containing k come only from the k block. -/
lemma countP_ftKindBlock_flatMap (entry : Entry) (d : List String) (k : String)
    (f : Feature) :
    ∀ kinds : List String, kinds.Nodup → k ∈ kinds →
      ((kinds.flatMap (ftKindBlock entry d)).countP (fun y => y = (k, f))) =
        (ftKindBlock entry d k).countP (fun y => y = (k, f)) := by
  intro kinds
  induction kinds with
  | nil => simp
  | cons x xs ih =>
    intro hnd hk
    rw [List.flatMap_cons, List.countP_append]
    rcases List.mem_cons.mp hk with hx | hx
    · subst hx
      rw [countP_ftKindBlock_flatMap_not_mem entry d k f xs (List.nodup_cons.mp hnd).1]
      exact Nat.add_zero _
    · rw [countP_ftKindBlock_ne entry d k x f (fun e => (List.nodup_cons.mp hnd).1 (e ▸ hx))]
      rw [Nat.zero_add]
      exact ih (List.nodup_cons.mp hnd).2 hx

/-- In its own enabled block, a feature occurs as often as it occurs in the
feature list of the entry. -/
lemma countP_ftKindBlock_self (entry : Entry) (d : List String) (f : Feature)
    (hd : f.type ∈ d) :
    (ftKindBlock entry d f.type).countP (fun y => y = (f.type, f)) =
      entry.features.countP (fun g => g = f) := by
  unfold ftKindBlock
  simp only [hd, if_pos]
  rw [List.countP_map, List.countP_filter]
  apply List.countP_congr
  intro a _
  by_cases haf : a = f
  · subst haf
    simp [Function.comp]
  · simp [Function.comp, haf]

/-- The argument dictionary of parse_args misses the feature_table key, so
every worker started on it fails before its first dequeue. -/
lemma consumer_parseArgs_run (a : ParsedArgs) (ext : Externals) (procId : Nat)
    (queue : List (Option Entry)) :
    generateGraphConsumer ext procId (parseArgsDict a) queue =
      { stats := [], dequeued := 0, err := some (Err.keyError "feature_table")
      , tornDown := [] } := by
  have h2 : ((parseArgsDict a).set "proc_id" (PyVal.int procId)).lookup
      "feature_table" = Option.none := by
    rw [Kwargs.lookup_set_ne _ _ _ _ (by decide)]
    rfl
  have hcf : computeFtDict ((parseArgsDict a).set "proc_id" (PyVal.int procId)) =
      Except.error (Err.keyError "feature_table") := by
    unfold computeFtDict
    rw [h2]
  simp only [generateGraphConsumer, hcf]

/-- Invariant preservation along the supervisor loop. -/
lemma supRun_inv (n : Nat) (P : SupState → Prop)
    (hstep : ∀ st o, P st → P (supStep n st o).1) :
    ∀ (trace : List SupObs) (st : SupState), P st → P (supRun n st trace).1 := by
  intro trace
  induction trace with
  | nil =>
    intro st h
    simpa [supRun] using h
  | cons o rest ih =>
    intro st h
    rw [show supRun n st (o :: rest) = if (supStep n st o).2 then
      ((supStep n st o).1, true) else supRun n (supStep n st o).1 rest from rfl]
    by_cases hb : (supStep n st o).2
    · rw [if_pos hb]
      exact hstep st o h
    · rw [if_neg hb]
      exact ih _ (hstep st o h)

/-- One supervisor step preserves: the entry queue received n stop tokens
when the sent-flag is set and none otherwise. -/
lemma supStep_entryTokens (n : Nat) (st : SupState) (o : SupObs)
    (h : st.entryTokens = if st.ggStopSent then n else 0) :
    (supStep n st o).1.entryTokens =
      if (supStep n st o).1.ggStopSent then n else 0 := by
  by_cases h1 : o.writerAlive = false
  · simpa [supStep, h1] using h
  · by_cases h2 : o.workersAllDead = true ∧ st.writerStopSent = false
    · simpa [supStep, h1, h2] using h
    · by_cases h3 : o.readerAlive = false ∧ st.ggStopSent = false
      · have h0 : st.entryTokens = 0 := by
          rw [h, if_neg (by simp [h3.2])]
        simp [supStep, h1, h2, h3, h0]
      · simpa [supStep, h1, h2, h3] using h

/-- One supervisor step preserves: the statistics queue received one stop
token when the sent-flag is set and none otherwise. -/
lemma supStep_statsTokens (n : Nat) (st : SupState) (o : SupObs)
    (h : st.statsTokens = if st.writerStopSent then 1 else 0) :
    (supStep n st o).1.statsTokens =
      if (supStep n st o).1.writerStopSent then 1 else 0 := by
  by_cases h1 : o.writerAlive = false
  · simpa [supStep, h1] using h
  · by_cases h2 : o.workersAllDead = true ∧ st.writerStopSent = false
    · have h0 : st.statsTokens = 0 := by
        rw [h, if_neg (by simp [h2.2])]
      simp [supStep, h1, h2, h0]
    · by_cases h3 : o.readerAlive = false ∧ st.ggStopSent = false
      · simpa [supStep, h1, h2, h3] using h
      · simpa [supStep, h1, h2, h3] using h

/-- A supervisor step sets the entry-token flag only on observing a dead
reader. -/
lemma supStep_ggStopSent (n : Nat) (st : SupState) (o : SupObs)
    (h : (supStep n st o).1.ggStopSent = true) :
    st.ggStopSent = true ∨ o.readerAlive = false := by
  by_cases h1 : o.writerAlive = false
  · simp only [supStep, if_pos h1] at h
    exact Or.inl h
  · by_cases h2 : o.workersAllDead = true ∧ st.writerStopSent = false
    · simp [supStep, h1, h2] at h
      exact Or.inl h
    · by_cases h3 : o.readerAlive = false ∧ st.ggStopSent = false
      · exact Or.inr h3.1
      · simp [supStep, h1, h2, h3] at h
        exact Or.inl h

/-- A supervisor step sets the statistics-token flag only on observing all
workers dead. -/
lemma supStep_writerStopSent (n : Nat) (st : SupState) (o : SupObs)
    (h : (supStep n st o).1.writerStopSent = true) :
    st.writerStopSent = true ∨ o.workersAllDead = true := by
  by_cases h1 : o.writerAlive = false
  · simp only [supStep, if_pos h1] at h
    exact Or.inl h
  · by_cases h2 : o.workersAllDead = true ∧ st.writerStopSent = false
    · exact Or.inr h2.1
    · by_cases h3 : o.readerAlive = false ∧ st.ggStopSent = false
      · simp [supStep, h1, h2, h3] at h
        exact Or.inl h
      · simp [supStep, h1, h2, h3] at h
        exact Or.inl h

/-- Along a supervisor run, the entry-token flag can only have been set at
an observation of a dead reader. -/
lemma supRun_ggStopSent_origin (n : Nat) :
    ∀ (trace : List SupObs) (st : SupState),
      (supRun n st trace).1.ggStopSent = true →
      st.ggStopSent = true ∨ ∃ o ∈ trace, o.readerAlive = false := by
  intro trace
  induction trace with
  | nil =>
    intro st h
    exact Or.inl (by simpa [supRun] using h)
  | cons o rest ih =>
    intro st h
    rw [show supRun n st (o :: rest) = if (supStep n st o).2 then
      ((supStep n st o).1, true) else supRun n (supStep n st o).1 rest from rfl] at h
    by_cases hb : (supStep n st o).2
    · rw [if_pos hb] at h
      rcases supStep_ggStopSent n st o h with h' | h'
      · exact Or.inl h'
      · exact Or.inr ⟨o, by simp, h'⟩
    · rw [if_neg hb] at h
      rcases ih _ h with h' | ⟨o', ho', hr⟩
      · rcases supStep_ggStopSent n st o h' with h'' | h''
        · exact Or.inl h''
        · exact Or.inr ⟨o, by simp, h''⟩
      · exact Or.inr ⟨o', by simp [ho'], hr⟩

/-- Along a supervisor run, the statistics-token flag can only have been
set at an observation of all workers dead. -/
lemma supRun_writerStopSent_origin (n : Nat) :
    ∀ (trace : List SupObs) (st : SupState),
      (supRun n st trace).1.writerStopSent = true →
      st.writerStopSent = true ∨ ∃ o ∈ trace, o.workersAllDead = true := by
  intro trace
  induction trace with
  | nil =>
    intro st h
    exact Or.inl (by simpa [supRun] using h)
  | cons o rest ih =>
    intro st h
    rw [show supRun n st (o :: rest) = if (supStep n st o).2 then
      ((supStep n st o).1, true) else supRun n (supStep n st o).1 rest from rfl] at h
    by_cases hb : (supStep n st o).2
    · rw [if_pos hb] at h
      rcases supStep_writerStopSent n st o h with h' | h'
      · exact Or.inl h'
      · exact Or.inr ⟨o, by simp, h'⟩
    · rw [if_neg hb] at h
      rcases ih _ h with h' | ⟨o', ho', hr⟩
      · rcases supStep_writerStopSent n st o h' with h'' | h''
        · exact Or.inl h''
        · exact Or.inr ⟨o, by simp, h''⟩
      · exact Or.inr ⟨o', by simp [ho'], hr⟩

/-- The worker loop consumes exactly its entries plus the first stop token
when every entry processes successfully, whatever follows the token. -/
lemma consumerLoop_stops_at_token (process : Entry → Except Err Stat) :
    ∀ (entries : List Entry) (junk : List (Option Entry)),
      (∀ e ∈ entries, ∃ st, process e = Except.ok st) →
      (consumerLoop process (entries.map some ++ Option.none :: junk)).2.1 =
        entries.length + 1 ∧
      (consumerLoop process (entries.map some ++ Option.none :: junk)).2.2 =
        Option.none := by
  intro entries
  induction entries with
  | nil =>
    intro junk _
    simp [consumerLoop]
  | cons e es ih =>
    intro junk h
    obtain ⟨st, hst⟩ := h e (by simp)
    have hr := ih junk (fun x hx => h x (by simp [hx]))
    simp only [List.map_cons, List.cons_append, consumerLoop, hst]
    simp [hr.1, hr.2]

/-- The writer loop writes exactly the rows preceding the first stop token,
whatever follows the token. -/
lemma writerRows_stops_at_token :
    ∀ (rows : List (List PyVal)) (junk : List (Option (List PyVal))),
      writerRows (rows.map some ++ Option.none :: junk) = rows := by
  intro rows
  induction rows with
  | nil =>
    intro junk
    rfl
  | cons r rs ih =>
    intro junk
    simp [writerRows, ih]

/-! ## Theorems settling the claims -/

/-- C3: the shutdown protocol of the supervisor loop: exactly
numWorkers stop tokens are placed on the entry queue and only after the
reader was observed dead, exactly one stop token is placed on the
statistics queue and only after all workers were observed dead, the
supervisor exits at the first observation of a dead writer, each worker
exits on the first stop token it dequeues, and the writer exits on its
first stop token. -/
theorem shutdown_protocol_spec (numOfProcesses : Option Nat) (cpuCount : Nat)
    (trace : List SupObs) :
    ((supRun (protGraphConfig numOfProcesses cpuCount).numWorkers initSupState
        trace).1.entryTokens =
      if (supRun (protGraphConfig numOfProcesses cpuCount).numWorkers initSupState
          trace).1.ggStopSent
      then (protGraphConfig numOfProcesses cpuCount).numWorkers else 0) ∧
    ((supRun (protGraphConfig numOfProcesses cpuCount).numWorkers initSupState
        trace).1.statsTokens =
      if (supRun (protGraphConfig numOfProcesses cpuCount).numWorkers initSupState
          trace).1.writerStopSent
      then 1 else 0) ∧
    ((supRun (protGraphConfig numOfProcesses cpuCount).numWorkers initSupState
        trace).1.ggStopSent = true →
      ∃ o ∈ trace, o.readerAlive = false) ∧
    ((supRun (protGraphConfig numOfProcesses cpuCount).numWorkers initSupState
        trace).1.writerStopSent = true →
      ∃ o ∈ trace, o.workersAllDead = true) ∧
    (∀ (st : SupState) (o : SupObs) (rest : List SupObs), o.writerAlive = false →
      supRun (protGraphConfig numOfProcesses cpuCount).numWorkers st (o :: rest) =
        (st, true)) ∧
    (∀ (process : Entry → Except Err Stat) (entries : List Entry)
      (junk : List (Option Entry)),
      (∀ e ∈ entries, ∃ st, process e = Except.ok st) →
      (consumerLoop process (entries.map some ++ Option.none :: junk)).2.1 =
        entries.length + 1) ∧
    (∀ (process : Entry → Except Err Stat) (junk : List (Option Entry)),
      consumerLoop process (Option.none :: junk) = ([], 1, Option.none)) ∧
    (∀ (rows : List (List PyVal)) (junk : List (Option (List PyVal))),
      writerRows (rows.map some ++ Option.none :: junk) = rows) := by
  refine ⟨?_, ?_, ?_, ?_, ?_, ?_, ?_, ?_⟩
  · exact supRun_inv _ (fun st => st.entryTokens = if st.ggStopSent then _ else 0)
      (supStep_entryTokens _) trace initSupState (by simp [initSupState])
  · exact supRun_inv _ (fun st => st.statsTokens = if st.writerStopSent then 1 else 0)
      (supStep_statsTokens _) trace initSupState (by simp [initSupState])
  · intro h
    rcases supRun_ggStopSent_origin _ trace initSupState h with h' | h'
    · exact absurd h' (by simp [initSupState])
    · exact h'
  · intro h
    rcases supRun_writerStopSent_origin _ trace initSupState h with h' | h'
    · exact absurd h' (by simp [initSupState])
    · exact h'
  · intro st o rest h
    rw [show supRun (protGraphConfig numOfProcesses cpuCount).numWorkers st
        (o :: rest) =
      if (supStep (protGraphConfig numOfProcesses cpuCount).numWorkers st o).2 then
        ((supStep (protGraphConfig numOfProcesses cpuCount).numWorkers st o).1, true)
      else supRun (protGraphConfig numOfProcesses cpuCount).numWorkers
        (supStep (protGraphConfig numOfProcesses cpuCount).numWorkers st o).1 rest
      from rfl]
    rw [show supStep (protGraphConfig numOfProcesses cpuCount).numWorkers st o =
      (st, true) from by simp [supStep, h]]
    rfl
  · intro process entries junk h
    exact (consumerLoop_stops_at_token process entries junk h).1
  · intro process junk
    rfl
  · intro rows junk
    exact writerRows_stops_at_token rows junk

/-- Witness for C3 at two workers and a three-observation trace in which
first the reader dies, then the workers, then the writer. -/
theorem shutdown_protocol_spec_witness :
    ((supRun (protGraphConfig (some 2) 8).numWorkers initSupState
        [SupObs.mk true false false, SupObs.mk true true false,
          SupObs.mk false true false]).1.entryTokens = 2) ∧
    ((supRun (protGraphConfig (some 2) 8).numWorkers initSupState
        [SupObs.mk true false false, SupObs.mk true true false,
          SupObs.mk false true false]).1.statsTokens = 1) ∧
    (∃ o ∈ [SupObs.mk true false false, SupObs.mk true true false,
        SupObs.mk false true false], o.readerAlive = false) ∧
    (∃ o ∈ [SupObs.mk true false false, SupObs.mk true true false,
        SupObs.mk false true false], o.workersAllDead = true) ∧
    supRun (protGraphConfig (some 2) 8).numWorkers initSupState
        [SupObs.mk false false false] = (initSupState, true) ∧
    (consumerLoop (fun _ => Except.ok exampleStat)
        ([exampleEntryOk].map some ++ Option.none :: [])).2.1 = 2 := by
  have h := shutdown_protocol_spec (some 2) 8
    [SupObs.mk true false false, SupObs.mk true true false,
      SupObs.mk false true false]
  refine ⟨h.1.trans (by decide), h.2.1.trans (by decide),
    h.2.2.1 (by decide), h.2.2.2.1 (by decide),
    h.2.2.2.2.1 initSupState (SupObs.mk false false false) [] rfl,
    h.2.2.2.2.2.1 (fun _ => Except.ok exampleStat) [exampleEntryOk] []
      (fun e _ => ⟨exampleStat, rfl⟩)⟩

/-- C9: the keys feature_table, replace_aa, no_collapsing_edges and
no_description required by generate_graph_consumer are absent from every
argument dictionary built by parse_args, and a worker started on such a
dictionary raises KeyError on feature_table before dequeuing any entry. -/
theorem consumer_requires_missing_keys (a : ParsedArgs) (ext : Externals)
    (procId : Nat) (queue : List (Option Entry)) :
    (parseArgsDict a).lookup "feature_table" = Option.none ∧
    (parseArgsDict a).lookup "replace_aa" = Option.none ∧
    (parseArgsDict a).lookup "no_collapsing_edges" = Option.none ∧
    (parseArgsDict a).lookup "no_description" = Option.none ∧
    generateGraphConsumer ext procId (parseArgsDict a) queue =
      { stats := [], dequeued := 0, err := some (Err.keyError "feature_table")
      , tornDown := [] } :=
  ⟨rfl, rfl, rfl, rfl, consumer_parseArgs_run a ext procId queue⟩

/-- C4: the worker never consults the skip flags: none of the four skip
keys is among the keys the worker reads, two kwargs dictionaries agreeing
on the keys the worker reads yield identical worker behaviour regardless
of the skip values, and on the dictionary built by parse_args with
skip_isoforms set the worker raises KeyError on feature_table instead of
excluding VAR_SEQ. -/
theorem skip_flags_no_effect :
    (∀ k ∈ ["skip_isoforms", "skip_variants", "skip_init_met", "skip_signal"],
      k ∉ consumerReadKeys) ∧
    (∀ (ext : Externals) (procId : Nat) (kw1 kw2 : Kwargs)
      (queue : List (Option Entry)),
      (∀ k ∈ consumerReadKeys, kw1.lookup k = kw2.lookup k) →
      generateGraphConsumer ext procId kw1 queue =
        generateGraphConsumer ext procId kw2 queue) ∧
    (∀ (a : ParsedArgs) (ext : Externals) (procId : Nat)
      (queue : List (Option Entry)),
      a.skip_isoforms = true →
      generateGraphConsumer ext procId (parseArgsDict a) queue =
        { stats := [], dequeued := 0
        , err := some (Err.keyError "feature_table"), tornDown := [] }) := by
  refine ⟨by decide, ?_, ?_⟩
  · intro ext procId kw1 kw2 queue hagree
    have hne : ∀ k ∈ consumerReadKeys, k ≠ "proc_id" := by decide
    have hl : ∀ k ∈ consumerReadKeys,
        (kw1.set "proc_id" (PyVal.int procId)).lookup k =
        (kw2.set "proc_id" (PyVal.int procId)).lookup k := by
      intro k hk
      rw [Kwargs.lookup_set_ne _ _ _ _ (hne k hk),
        Kwargs.lookup_set_ne _ _ _ _ (hne k hk)]
      exact hagree k hk
    have hg : ∀ k ∈ consumerReadKeys,
        (kw1.set "proc_id" (PyVal.int procId)).get k =
        (kw2.set "proc_id" (PyVal.int procId)).get k := by
      intro k hk
      unfold Kwargs.get
      rw [hl k hk]
    have hcf : computeFtDict (kw1.set "proc_id" (PyVal.int procId)) =
        computeFtDict (kw2.set "proc_id" (PyVal.int procId)) := by
      unfold computeFtDict
      rw [hl "feature_table" (by decide)]
    simp only [generateGraphConsumer, hcf]
    cases hres : computeFtDict (kw2.set "proc_id" (PyVal.int procId)) with
    | error e => rfl
    | ok d =>
      have hpe : processEntry ext (kw1.set "proc_id" (PyVal.int procId)) d =
          processEntry ext (kw2.set "proc_id" (PyVal.int procId)) d := by
        funext e
        unfold processEntry
        simp only [hg "replace_aa" (by decide), hg "digestion" (by decide),
          hg "no_merge" (by decide), hg "no_collapsing_edges" (by decide),
          hg "verify_graph" (by decide), hg "no_description" (by decide)]
      show exportersWithBlock ext.startedExporters
          (consumerLoop (processEntry ext (kw1.set "proc_id" (PyVal.int procId)) d) queue) =
        exportersWithBlock ext.startedExporters
          (consumerLoop (processEntry ext (kw2.set "proc_id" (PyVal.int procId)) d) queue)
      rw [hpe]
  · intro a ext procId queue _
    exact consumer_parseArgs_run a ext procId queue

/-- Witness for C4: flipping skip_isoforms in a complete kwargs dictionary
leaves the worker run unchanged, and on the parse_args dictionary with
skip_isoforms set the worker raises KeyError on feature_table. -/
theorem skip_flags_no_effect_witness :
    (generateGraphConsumer exampleExternals 0
        (("skip_isoforms", PyVal.bool true) :: exampleKwargs)
        [some exampleEntryOk, Option.none] =
      generateGraphConsumer exampleExternals 0
        (("skip_isoforms", PyVal.bool false) :: exampleKwargs)
        [some exampleEntryOk, Option.none]) ∧
    generateGraphConsumer exampleExternals 0
        (parseArgsDict { defaultParsedArgs with skip_isoforms := true }) [] =
      { stats := [], dequeued := 0, err := some (Err.keyError "feature_table")
      , tornDown := [] } := by
  constructor
  · exact skip_flags_no_effect.2.1 exampleExternals 0 _ _ _ (by decide)
  · exact skip_flags_no_effect.2.2 _ exampleExternals 0 [] rfl

/-- C1 counterexample: with collaborators failing on the first entry, the
worker run ends exceptionally after one dequeue: the statistics record of
the following healthy entry is never emitted and the next entry is never
dequeued, so a local failure does not lead to skip-and-proceed. -/
theorem worker_failure_counterexample :
    generateGraphConsumer failingExternals 0 exampleKwargs
        [some exampleEntryFail, some exampleEntryOk, Option.none] =
      { stats := [], dequeued := 1
      , err := some (Err.featureResolution "feature position out of range")
      , tornDown := ["postgres"] } ∧
    (generateGraphConsumer failingExternals 0 exampleKwargs
        [some exampleEntryFail, some exampleEntryOk, Option.none]).stats = [] ∧
    (generateGraphConsumer failingExternals 0 exampleKwargs
        [some exampleEntryFail, some exampleEntryOk, Option.none]).dequeued < 2 := by
  refine ⟨?_, ?_, ?_⟩ <;> decide

/-- C1 as amended: an uncaught local failure while processing an entry
aborts the worker loop: the failing run emits no statistics record, makes
no further dequeue, and surfaces the exception (the exporters are still
torn down by the with-block). -/
theorem worker_failure_amended (ext : Externals) (procId : Nat) (kw : Kwargs)
    (ftDict : List String) (e : Entry) (rest : List (Option Entry)) (err : Err)
    (hft : computeFtDict (kw.set "proc_id" (PyVal.int procId)) = Except.ok ftDict)
    (hfail : processEntry ext (kw.set "proc_id" (PyVal.int procId)) ftDict e =
      Except.error err) :
    generateGraphConsumer ext procId kw (some e :: rest) =
      { stats := [], dequeued := 1, err := some err
      , tornDown := ext.startedExporters } := by
  simp only [generateGraphConsumer, hft]
  simp [consumerLoop, hfail, exportersWithBlock]

/-- Witness for C1 as amended, at the concrete failing run. -/
theorem worker_failure_amended_witness :
    generateGraphConsumer failingExternals 0 exampleKwargs
        [some exampleEntryFail, some exampleEntryOk, Option.none] =
      { stats := [], dequeued := 1
      , err := some (Err.featureResolution "feature position out of range")
      , tornDown := ["postgres"] } :=
  worker_failure_amended failingExternals 0 exampleKwargs allFtKinds
    exampleEntryFail [some exampleEntryOk, Option.none]
    (Err.featureResolution "feature position out of range") (by rfl) (by rfl)

/-- C8 counterexample: when cursor.close() raises inside Postgres.tear_down
on a worker exit with both handles open, the shared except swallows the
failure and conn.close() is never executed, so the connection (and the
cursor) remain open: the closure conjunct of the claim fails. -/
theorem postgres_teardown_counterexample :
    (postgresTearDown true false (PostgresState.mk true true)).1.connOpen = true ∧
    (postgresTearDown true false (PostgresState.mk true true)).1.cursorOpen = true ∧
    (postgresTearDown true false (PostgresState.mk true true)).2 = true :=
  ⟨rfl, rfl, rfl⟩

/-- C8 as amended: once the worker enters the Exporters with-block,
tear_down is invoked on every started exporter whatever the outcome of the
loop (normal stop-token exit or an uncaught exception); the Postgres
tear_down closes cursor and connection when neither close call raises, and
never itself propagates: if cursor.close() raises, the failure is swallowed,
conn.close() is skipped and the handle state is left unchanged. -/
theorem exporters_teardown_spec (ext : Externals) (procId : Nat) (kw : Kwargs)
    (queue : List (Option Entry)) (ftDict : List String)
    (hft : computeFtDict (kw.set "proc_id" (PyVal.int procId)) = Except.ok ftDict) :
    (generateGraphConsumer ext procId kw queue).tornDown = ext.startedExporters ∧
    (∀ x ∈ ext.startedExporters,
      x ∈ (generateGraphConsumer ext procId kw queue).tornDown) ∧
    (∀ ps : PostgresState, postgresTearDown false false ps =
      ({ cursorOpen := false, connOpen := false }, false)) ∧
    (∀ (ps : PostgresState) (connCloseRaises : Bool),
      (postgresTearDown true connCloseRaises ps).1 = ps ∧
      (postgresTearDown true connCloseRaises ps).2 = true) := by
  have h : (generateGraphConsumer ext procId kw queue).tornDown =
      ext.startedExporters := by
    simp only [generateGraphConsumer, hft]
    rfl
  refine ⟨h, ?_, fun _ => rfl, fun _ _ => ⟨rfl, rfl⟩⟩
  intro x hx
  rw [h]
  exact hx

/-- Witness for C8 as amended, at a concrete erroring worker run and a
tear-down whose close calls succeed. -/
theorem exporters_teardown_spec_witness :
    (generateGraphConsumer failingExternals 0 exampleKwargs
        [some exampleEntryFail, Option.none]).tornDown = ["postgres"] ∧
    postgresTearDown false false (PostgresState.mk true true) =
      ({ cursorOpen := false, connOpen := false }, false) := by
  have h := exporters_teardown_spec failingExternals 0 exampleKwargs
    [some exampleEntryFail, Option.none] allFtKinds (by rfl)
  exact ⟨h.1, h.2.2.1 (PostgresState.mk true true)⟩

/-- C5: for every residue string R of length n and accession A, the
canonical graph builder returns n+2 vertices chained by the n+1 edges
(i, i+1), vertex i for 1 <= i <= n carries aminoacid R[i-1], position i and
accession A, the sentinels carry __start__ and __end__, and no edge
attribute name exists. -/
theorem canonicalGraph_spec (R A : String) :
    (generateCanonicalGraph R A).numVertices = R.length + 2 ∧
    (generateCanonicalGraph R A).edges =
      (List.range (R.length + 1)).map (fun i => (i, i + 1)) ∧
    (generateCanonicalGraph R A).edges.length = R.length + 1 ∧
    (generateCanonicalGraph R A).aminoacid[0]? = some "__start__" ∧
    (generateCanonicalGraph R A).aminoacid[R.length + 1]? = some "__end__" ∧
    (∀ i, 1 ≤ i → i ≤ R.length →
      (generateCanonicalGraph R A).aminoacid[i]? =
        (R.toList[i - 1]?).map (fun c => String.mk [c]) ∧
      (generateCanonicalGraph R A).position[i]? = some i ∧
      (generateCanonicalGraph R A).accession[i]? = some A) ∧
    (generateCanonicalGraph R A).edgeAttributeNames = [] := by
  have hlen : (R.toList.map (fun c => String.mk [c])).length = R.length := by
    rw [List.length_map]
    rfl
  have hedges : (generateCanonicalGraph R A).edges.length = R.length + 1 := by
    show ((List.range (R.length + 1)).map (fun x1 => (x1, x1 + 1))).length = R.length + 1
    simp
  have hstart : (generateCanonicalGraph R A).aminoacid[0]? = some "__start__" := by
    show ("__start__" :: (R.toList.map (fun c => String.mk [c]) ++ ["__end__"]))[0]? = _
    simp
  refine ⟨rfl, rfl, hedges, hstart, ?_, ?_, rfl⟩
  · show ("__start__" :: (R.toList.map (fun c => String.mk [c]) ++
      ["__end__"]))[R.length + 1]? = some "__end__"
    rw [List.getElem?_cons_succ, List.getElem?_append_right (by omega), hlen]
    simp
  · intro i h1 h2
    obtain ⟨j, rfl⟩ : ∃ j, i = j + 1 := ⟨i - 1, (Nat.succ_pred_eq_of_pos h1).symm⟩
    have hj : j < R.length := by omega
    refine ⟨?_, ?_, ?_⟩
    · show ("__start__" :: (R.toList.map (fun c => String.mk [c]) ++
        ["__end__"]))[j + 1]? = _
      rw [List.getElem?_cons_succ, List.getElem?_append_left (by omega)]
      rw [List.getElem?_map]
      congr 1
    · show (List.range (R.length + 2))[j + 1]? = some (j + 1)
      have hj2 : j + 1 < R.length + 2 := by omega
      simp [List.getElem?_range, hj2]
    · show (A :: (List.replicate R.length A ++ [A]))[j + 1]? = some A
      rw [List.getElem?_cons_succ, List.getElem?_append_left (by simpa using hj)]
      simp [List.getElem?_replicate, hj]

/-- Witness for C5 at the concrete input R = MK, A = P1, i = 1. -/
theorem canonicalGraph_spec_witness :
    (generateCanonicalGraph "MK" "P1").aminoacid[1]? = some "M" ∧
    (generateCanonicalGraph "MK" "P1").position[1]? = some 1 ∧
    (generateCanonicalGraph "MK" "P1").accession[1]? = some "P1" := by
  have h := (canonicalGraph_spec "MK" "P1").2.2.2.2.2.1 1 (by decide) (by decide)
  exact ⟨h.1.trans (by decide), h.2.1, h.2.2⟩

/-- C6: the application trace of _include_ft_information is the
concatenation, in the fixed order VAR_SEQ, INIT_MET, SIGNAL, VARIANT,
MUTAGEN, CONFLICT, PROPEP, PEPTIDE, of the per-kind blocks of enabled
kinds, and every feature of an enabled kind is applied exactly as often as
it occurs in the entry. -/
theorem includeFt_order (entry : Entry) (ftDict : List String) :
    includeFtTrace entry ftDict = ftKindOrder.flatMap (ftKindBlock entry ftDict) ∧
    (∀ f ∈ entry.features, f.type ∈ ftDict → f.type ∈ ftKindOrder →
      (includeFtTrace entry ftDict).countP (fun y => y = (f.type, f)) =
        entry.features.countP (fun g => g = f)) := by
  have hmain : includeFtTrace entry ftDict =
      ftKindOrder.flatMap (ftKindBlock entry ftDict) := by
    have h0 : includeFtTrace entry ftDict =
        includeSpecificFtTrace "VAR_SEQ" entry ftDict
        ++ includeSpecificFtTrace "INIT_MET" entry ftDict
        ++ includeSpecificFtTrace "SIGNAL" entry ftDict
        ++ includeSpecificFtTrace "VARIANT" entry ftDict
        ++ includeSpecificFtTrace "MUTAGEN" entry ftDict
        ++ includeSpecificFtTrace "CONFLICT" entry ftDict
        ++ includeSpecificFtTrace "PROPEP" entry ftDict
        ++ includeSpecificFtTrace "PEPTIDE" entry ftDict := rfl
    rw [h0]
    simp only [includeSpecificFtTrace_eq_block]
    simp [ftKindOrder, List.append_assoc]
  refine ⟨hmain, ?_⟩
  intro f _ hd hord
  rw [hmain]
  rw [countP_ftKindBlock_flatMap entry ftDict f.type f ftKindOrder (by decide) hord]
  exact countP_ftKindBlock_self entry ftDict f hd

/-- Witness for C6 at a concrete entry holding one VARIANT feature, with
all kinds enabled. -/
theorem includeFt_order_witness :
    (includeFtTrace (Entry.mk ["P1"] "TEST" "MK" "d" [Feature.mk "VARIANT" 0] [])
        allFtKinds).countP
      (fun y => y = ("VARIANT", Feature.mk "VARIANT" 0)) = 1 := by
  have h := (includeFt_order
      (Entry.mk ["P1"] "TEST" "MK" "d" [Feature.mk "VARIANT" 0] []) allFtKinds).2
    (Feature.mk "VARIANT" 0) (by decide) (by decide) (by decide)
  exact h.trans (by decide)

/-- C7: the pipeline is constructed with a bounded entry queue of capacity
exactly 1000, an unbounded statistics queue, and cpu_count() - 1 workers
when num_of_processes is not given. -/
theorem pipelineConfig_spec (numOfProcesses : Option Nat) (cpuCount : Nat) :
    (protGraphConfig numOfProcesses cpuCount).entryQueueCapacity = some 1000 ∧
    (protGraphConfig numOfProcesses cpuCount).statisticsQueueCapacity = Option.none ∧
    (numOfProcesses = Option.none →
      (protGraphConfig numOfProcesses cpuCount).numWorkers = cpuCount - 1) := by
  refine ⟨rfl, rfl, ?_⟩
  rintro rfl
  rfl

/-- Witness for C7 at cpu_count = 8 and num_of_processes omitted. -/
theorem pipelineConfig_spec_witness :
    (protGraphConfig Option.none 8).numWorkers = 7 :=
  (pipelineConfig_spec Option.none 8).2.2 rfl

/-- C2 evaluation: the header row written by write_output_csv_thread has 13
columns, while every statistics tuple put on the statistics queue by the
worker has 18 fields, so data rows are not aligned with the header. -/
theorem statsRow_header_mismatch :
    csvHeaderRow.length = 13 ∧ (∀ st : Stat, (statRow st).length = 18) ∧
      (13 : Nat) ≠ 18 :=
  ⟨rfl, fun _ => rfl, by decide⟩

/-- C10: the no-duplicates export retries the insert after a rollback with
no retry limit: within any observation bound the call stack unwinds with a
success index iff some attempt succeeded, and under a persistently failing
insert every bound is exhausted with one execute and one rollback per
attempt, so the recursion depth grows without bound. -/
theorem retryNoDuplicates_spec (s : Nat → Bool) (fuel : Nat) :
    ((executeExportNoDuplicates s fuel 0).1.isSome = true ↔
      ∃ k, k < fuel ∧ s k = true) ∧
    ((∀ i, s i = false) →
      executeExportNoDuplicates s fuel 0 =
        (Option.none, (List.range' 0 fuel).flatMap
          (fun j => [RetryEvent.execute j, RetryEvent.rollback j])) ∧
      (executeExportNoDuplicates s fuel 0).2.length = 2 * fuel) := by
  constructor
  · simpa using executeExportNoDuplicates_isSome s fuel 0
  · intro hs
    have h := executeExportNoDuplicates_persistent s hs fuel 0
    refine ⟨h, ?_⟩
    rw [h]
    simp only []
    rw [length_flatMap_pair]
    simp [List.length_range']

/-- Witness for C10 with a persistently failing insert, observed for two
attempts. -/
theorem retryNoDuplicates_spec_witness :
    executeExportNoDuplicates (fun _ => false) 2 0 =
      (Option.none, [RetryEvent.execute 0, RetryEvent.rollback 0,
        RetryEvent.execute 1, RetryEvent.rollback 1]) := by
  have h := (retryNoDuplicates_spec (fun _ => false) 2).2 (fun _ => rfl)
  exact h.1.trans (by decide)

end ProtGraph
